import Mathlib

/-!
Shallow embedding of the chatai_llm_tts repository
(src/models.py, src/llm_service.py, src/tts_service.py,
src/websocket_handler.py) and verification of the spec claims.

Python values exchanged as JSON are modelled by JValue; Python
exceptions by PyExn; a Python function that may raise is modelled as
returning Except PyExn.  Network effects (the HTTP responses of the
two upstream services, the behaviour of the websocket receive and send
operations) are supplied as explicit oracle inputs, so every modelled
function is a pure total Lean function.
-/

/-- JSON-like values: the payloads exchanged with the client and the
upstream services. -/
inductive JValue where
  | null
  | bool (b : Bool)
  | str (s : String)
  | num (n : Int)
  | arr (elems : List JValue)
  | obj (fields : List (String × JValue))

/-- Dictionary lookup on a JSON object field list (Python d[k] /
d.get(k) on the parsed JSON dict). -/
def jLookup (key : String) : List (String × JValue) → Option JValue
  | [] => none
  | (k, v) :: rest => if k = key then some v else jLookup key rest

/-- The Python exceptions that appear in the modelled code paths. -/
inductive PyExn where
  | validationError
  | typeError
  | jsonDecodeError
  | webSocketDisconnect
  | runtimeError (msg : String)
  | httpStatusError (status : Nat)
  | timeoutException
  | connectError
  | keyError
  | exception (msg : String)
deriving DecidableEq

/-- The str(e) text of an exception.  The messages of exceptions the
repository raises itself (tts_service.py) are exact; the reprs of
library exceptions are abbreviated, since no claim depends on them. -/
def pyStr : PyExn → String
  | .validationError => "1 validation error for ClientMessage"
  | .typeError => "argument must be a mapping"
  | .jsonDecodeError => "Expecting value"
  | .webSocketDisconnect => "WebSocketDisconnect"
  | .runtimeError m => m
  | .httpStatusError s => "HTTP status error " ++ toString s
  | .timeoutException => "timed out"
  | .connectError => "connect error"
  | .keyError => "KeyError"
  | .exception m => m

/-- The fields of src/config.py settings that the modelled code reads.
The temperature is carried as an opaque JSON value so that no
floating-point arithmetic is modelled. -/
structure Settings where
  openai_base_url : String
  openai_api_key : String
  llm_model : String
  llm_max_tokens : Nat
  llm_temperature : JValue
  request_timeout : Nat
  tts_model : String
  tts_voice : String

/-- A concrete settings value used for closed test theorems. -/
def sampleSettings : Settings :=
  { openai_base_url := "https://api.openai.com/v1"
  , openai_api_key := "test-key"
  , llm_model := "gpt-4o-mini"
  , llm_max_tokens := 150
  , llm_temperature := .num 1
  , request_timeout := 30
  , tts_model := "tts-1"
  , tts_voice := "alloy" }

/-- The request payload built in llm_service.py get_llm_response
(lines 36-46): model, a single user message, max_tokens,
temperature. -/
def llmPayload (settings : Settings) (user_text : String) :
    List (String × JValue) :=
  [ ("model", .str settings.llm_model)
  , ("messages", .arr [ .obj [ ("role", .str "user")
                             , ("content", .str user_text) ] ])
  , ("max_tokens", .num (Int.ofNat settings.llm_max_tokens))
  , ("temperature", settings.llm_temperature) ]

/-- The subscript chain data choices 0 message content of
llm_service.py line 60.  Returns none when any step of the chain
raises (missing key, empty array, wrong shape), some v when the chain
reaches a value v. -/
def extractChoiceContent (data : JValue) : Option JValue :=
  match data with
  | .obj fields =>
    match jLookup "choices" fields with
    | some (.arr (first :: _)) =>
      match first with
      | .obj mfields =>
        match jLookup "message" mfields with
        | some (.obj cfields) => jLookup "content" cfields
        | _ => none
      | _ => none
    | _ => none
  | _ => none

/-- The behaviour of one HTTP POST to the chat-completions endpoint:
either a response with a status and a parsed JSON body, or a transport
failure raised by the client. -/
inductive HttpOutcome where
  | response (status : Nat) (body : JValue)
  | timeout
  | connectFail

/-- Success statuses: httpx response.is_success, the condition under
which raise_for_status does not raise. -/
def is2xx (status : Nat) : Bool := 200 ≤ status && status < 300

/-- The body of the try block of get_llm_response (llm_service.py
lines 51-60): post, raise_for_status, json, subscript chain. -/
def llmTryBody (o : HttpOutcome) : Except PyExn JValue :=
  match o with
  | .timeout => .error .timeoutException
  | .connectFail => .error .connectError
  | .response status body =>
    if is2xx status then
      match extractChoiceContent body with
      | some v => .ok v
      | none => .error .keyError
    else .error (.httpStatusError status)

/-- llm_service.py get_llm_response (lines 50-70).  The except clauses
print and fall through without re-raising (both raise statements are
commented out), so the function returns None on every failure. -/
def get_llm_response (o : HttpOutcome) : Except PyExn (Option JValue) :=
  match llmTryBody o with
  | .ok v => .ok (some v)
  | .error (.httpStatusError _) => .ok none
  | .error _ => .ok none

/-- The value get_llm_response returns for each outcome: the extracted
content of a 2xx response, and none in every other case. -/
def llmReturnValue : HttpOutcome → Option JValue
  | .response status body =>
      if is2xx status then extractChoiceContent body else none
  | .timeout => none
  | .connectFail => none

/-- The behaviour of one HTTP POST to the speech endpoint. -/
inductive TtsHttpOutcome where
  | response (status : Nat) (bodyBytes : List Nat)
  | timeout
  | connectFail

/-- The request payload built in tts_service.py get_tts_audio
(lines 19-24).  The input field carries whatever value the caller
passes, including None. -/
def ttsPayload (settings : Settings) (text : Option JValue) :
    List (String × JValue) :=
  [ ("model", .str settings.tts_model)
  , ("input", match text with | some v => v | none => .null)
  , ("voice", .str settings.tts_voice)
  , ("response_format", .str "mp3") ]

/-- tts_service.py get_tts_audio (lines 12-46): returns the raw body
bytes of a 2xx response and re-raises every failure as a plain
Exception with a formatted message. -/
def get_tts_audio (settings : Settings) (o : TtsHttpOutcome) :
    Except PyExn (List Nat) :=
  match o with
  | .response status bodyBytes =>
    if is2xx status then .ok bodyBytes
    else .error (.exception ("OpenAI TTS error: " ++ toString status))
  | .timeout =>
      .error (.exception
        ("TTS timeout after " ++ toString settings.request_timeout ++ "s"))
  | .connectFail => .error (.exception "Cannot connect to OpenAI")

/-- models.py ClientMessage: a validated client request. -/
structure ClientMessage where
  text : String
deriving DecidableEq

/-- The effect of ClientMessage(**data) in websocket_handler.py line
32: a non-object payload makes the double-star unpacking raise
TypeError; an object whose text field is missing, not a string, empty
or longer than 2000 characters makes pydantic raise ValidationError
(models.py lines 12-16); otherwise the validated message is built.
Extra fields are ignored, as by the default pydantic config. -/
def validateClientMessage (data : JValue) : Except PyExn ClientMessage :=
  match data with
  | .obj fields =>
    match jLookup "text" fields with
    | some (.str s) =>
        if 1 ≤ s.length && s.length ≤ 2000 then .ok ⟨s⟩
        else .error .validationError
    | some _ => .error .validationError
    | none => .error .validationError
  | _ => .error .typeError

/-- models.py ServerMessage (lines 22-26): one wide record with
optional fields. -/
structure ServerMessage where
  type : String
  audio_data : Option String := none
  llm_text : Option String := none
  error_message : Option String := none
deriving DecidableEq

/-- One optional field of the dump: present when the value is not
None, absent otherwise. -/
def optField (key : String) : Option String → List (String × String)
  | none => []
  | some s => [(key, s)]

/-- models.py ServerMessage.model_dump (lines 29-31): the field dict
in declaration order with every None-valued entry removed. -/
def ServerMessage.model_dump (m : ServerMessage) : List (String × String) :=
  [("type", m.type)]
    ++ optField "audio_data" m.audio_data
    ++ optField "llm_text" m.llm_text
    ++ optField "error_message" m.error_message

/-- The pydantic check of an Optional str field value: None and
strings are accepted, any other JSON value raises ValidationError. -/
def asOptionalStr (v : Option JValue) : Except PyExn (Option String) :=
  match v with
  | none => .ok none
  | some (.str s) => .ok (some s)
  | some _ => .error .validationError

/-! ## Base64 (websocket_handler.py line 46: base64.b64encode) -/

/-- The standard base64 alphabet. -/
def b64Alphabet : List Char :=
  "ABCDEFGHIJKLMNOPQRSTUVWXYZabcdefghijklmnopqrstuvwxyz0123456789+/".toList

/-- The alphabet character of a 6-bit group. -/
def b64Char (n : Nat) : Char := b64Alphabet.getD n 'A'

/-- The 6-bit group of an alphabet character. -/
def b64Index (c : Char) : Nat := b64Alphabet.indexOf c

/-- Standard base64 of a byte list: groups of three bytes become four
alphabet characters, a final group of one or two bytes is padded. -/
def b64encodeList : List Nat → List Char
  | [] => []
  | [b0] =>
      [b64Char (b0 / 4), b64Char (b0 % 4 * 16), '=', '=']
  | [b0, b1] =>
      [b64Char (b0 / 4), b64Char (b0 % 4 * 16 + b1 / 16),
       b64Char (b1 % 16 * 4), '=']
  | b0 :: b1 :: b2 :: rest =>
      b64Char (b0 / 4) :: b64Char (b0 % 4 * 16 + b1 / 16) ::
      b64Char (b1 % 16 * 4 + b2 / 64) :: b64Char (b2 % 64) ::
      b64encodeList rest

/-- Base64 decoding of a character list: each group of four characters
yields three bytes, or fewer at the padded final group. -/
def b64decodeList : List Char → List Nat
  | c0 :: c1 :: c2 :: c3 :: rest =>
      if c2 = '=' then
        [b64Index c0 * 4 + b64Index c1 / 16]
      else if c3 = '=' then
        [b64Index c0 * 4 + b64Index c1 / 16,
         b64Index c1 % 16 * 16 + b64Index c2 / 4]
      else
        (b64Index c0 * 4 + b64Index c1 / 16) ::
        (b64Index c1 % 16 * 16 + b64Index c2 / 4) ::
        (b64Index c2 % 4 * 64 + b64Index c3) ::
        b64decodeList rest
  | _ => []

/-- String form of the encoder, as used to fill audio_data. -/
def b64encode (bytes : List Nat) : String := String.mk (b64encodeList bytes)

/-- String form of the decoder. -/
def b64decode (s : String) : List Nat := b64decodeList s.toList

/-! ## The websocket handler (websocket_handler.py) -/

/-- The frame built and sent by send_error (websocket_handler.py
lines 75-80): a ServerMessage with type error, the message, and an
explicit empty llm_text, dumped with None fields removed. -/
def sendErrorFrame (error_message : String) : List (String × String) :=
  (ServerMessage.mk "error" none (some "") (some error_message)).model_dump

/-- websocket_handler.py send_error (lines 73-82): build the error
response and send it; the bare except swallows every failure.  The
oracle sendRaises is the behaviour of websocket.send_json: none means
the send succeeds, some e means it raises e.  The result lists the
frames actually delivered to the client. -/
def send_error (sendRaises : Option PyExn) (error_message : String) :
    Except PyExn (List (List (String × String))) :=
  let body : Except PyExn (List (List (String × String))) :=
    match sendRaises with
    | none => .ok [sendErrorFrame error_message]
    | some e => .error e
  match body with
  | .ok frames => .ok frames
  | .error _ => .ok []

/-- The behaviour of one websocket.receive_json call: a parsed JSON
value, or a raised exception (WebSocketDisconnect or RuntimeError on a
dead channel, JSONDecodeError on an unparseable payload). -/
inductive RecvResult where
  | value (data : JValue)
  | raises (e : PyExn)

/-- The environment of one loop iteration: the configuration and the
behaviour of every external effect the iteration may perform. -/
structure Env where
  settings : Settings
  recv : RecvResult
  llmHttp : HttpOutcome
  ttsHttp : TtsHttpOutcome
  sendAudioRaises : Option PyExn
  sendErrorRaises : Option PyExn

/-- How one iteration of the while loop ends: go on to the next
message, leave the loop by break (clean disconnect), or leave it by an
uncaught exception.  In the last two cases the finally block closes
the websocket, so both mean the connection is closed. -/
inductive LoopOutcome where
  | next
  | stop
  | uncaught (e : PyExn)
deriving DecidableEq

/-- The observable trace of one loop iteration: the argument of the
LLM call if one was made, the argument of the TTS call if one was
made, the frames delivered to the client, and how the iteration
ended. -/
structure IterTrace where
  llmInput : Option String
  ttsInput : Option (Option JValue)
  sent : List (List (String × String))
  outcome : LoopOutcome

/-- The except-Exception branch of the pipeline try block
(websocket_handler.py lines 57-60): send a Processing error frame via
send_error and continue the loop. -/
def procError (env : Env) (llmInput : Option String)
    (ttsInput : Option (Option JValue)) (e : PyExn) : IterTrace :=
  match send_error env.sendErrorRaises ("Processing error: " ++ pyStr e) with
  | .ok frames => ⟨llmInput, ttsInput, frames, .next⟩
  | .error e2 => ⟨llmInput, ttsInput, [], .uncaught e2⟩

/-- The pipeline try block of the handler (websocket_handler.py lines
41-60) for one validated message: call the LLM service, pass its
result to the TTS service, base64-encode the audio, build the audio
ServerMessage, send it; any exception in the block is caught and
reported through send_error. -/
def runPipeline (env : Env) (message : ClientMessage) : IterTrace :=
  match get_llm_response env.llmHttp with
  | .error e => procError env (some message.text) none e
  | .ok llm_response =>
    match get_tts_audio env.settings env.ttsHttp with
    | .error e => procError env (some message.text) (some llm_response) e
    | .ok audio_bytes =>
      let audio_base64 := b64encode audio_bytes
      match asOptionalStr llm_response with
      | .error e => procError env (some message.text) (some llm_response) e
      | .ok llm_text_val =>
        let response : ServerMessage :=
          ⟨"audio", some audio_base64, llm_text_val, none⟩
        match env.sendAudioRaises with
        | some e => procError env (some message.text) (some llm_response) e
        | none =>
          ⟨some message.text, some llm_response,
            [response.model_dump], .next⟩

/-- One iteration of the while-True loop of handle_websocket
(websocket_handler.py lines 27-60).  Receive and validate: a
ValidationError is answered with an Invalid-message-format frame and
the loop continues; WebSocketDisconnect and RuntimeError break the
loop; any other exception (JSONDecodeError for an unparseable payload,
TypeError for a non-object payload) is caught by no clause and escapes
the loop.  A validated message then runs the pipeline block. -/
def processOneMessage (env : Env) : IterTrace :=
  match env.recv with
  | .raises .webSocketDisconnect => ⟨none, none, [], .stop⟩
  | .raises (.runtimeError _) => ⟨none, none, [], .stop⟩
  | .raises e => ⟨none, none, [], .uncaught e⟩
  | .value data =>
    match validateClientMessage data with
    | .error .validationError =>
      match send_error env.sendErrorRaises "Invalid message format" with
      | .ok frames => ⟨none, none, frames, .next⟩
      | .error e2 => ⟨none, none, [], .uncaught e2⟩
    | .error e => ⟨none, none, [], .uncaught e⟩
    | .ok message => runPipeline env message

/-- The exit behaviour of one iteration as a function of the receive
and validation stage alone: what the loop outcome is does not consult
the LLM, TTS or send behaviour. -/
def loopExitOf (env : Env) : LoopOutcome :=
  match env.recv with
  | .raises .webSocketDisconnect => .stop
  | .raises (.runtimeError _) => .stop
  | .raises e => .uncaught e
  | .value data =>
    match validateClientMessage data with
    | .error .validationError => .next
    | .error e => .uncaught e
    | .ok _ => .next

/-! ## Concrete environments for closed theorems -/

/-- A 2xx chat-completions body whose first choice message content is
the string Hi there. -/
def llmBodyHi : JValue :=
  .obj [("choices", .arr
    [.obj [("message", .obj [("content", .str "Hi there")])]])]

/-- Environment: valid request, LLM upstream answers 500, TTS upstream
rejects with 400, the client channel works. -/
def envC1 : Env :=
  { settings := sampleSettings
  , recv := .value (.obj [("text", .str "Hello")])
  , llmHttp := .response 500 (.obj [])
  , ttsHttp := .response 400 []
  , sendAudioRaises := none
  , sendErrorRaises := none }

/-- Environment: the inbound payload is not parseable as JSON, so
receive_json raises JSONDecodeError. -/
def envC3 : Env :=
  { settings := sampleSettings
  , recv := .raises .jsonDecodeError
  , llmHttp := .response 200 llmBodyHi
  , ttsHttp := .response 200 [0, 1]
  , sendAudioRaises := none
  , sendErrorRaises := none }

/-- Environment: a JSON object with an empty text field, everything
else healthy. -/
def envC3w : Env :=
  { envC3 with recv := .value (.obj [("text", .str "")]) }

/-- Environment: valid request, both upstream calls succeed, but the
channel back to the client is broken, so both send_json and the send
inside send_error raise RuntimeError. -/
def envC4 : Env :=
  { settings := sampleSettings
  , recv := .value (.obj [("text", .str "Hello")])
  , llmHttp := .response 200 llmBodyHi
  , ttsHttp := .response 200 [0, 1]
  , sendAudioRaises := some (.runtimeError "Cannot call send, socket closed")
  , sendErrorRaises := some (.runtimeError "Cannot call send, socket closed") }

/-- Environment: the inbound payload is a JSON object without a text
field, the channel works. -/
def envC5 : Env :=
  { settings := sampleSettings
  , recv := .value (.obj [])
  , llmHttp := .response 200 llmBodyHi
  , ttsHttp := .response 200 [0, 1]
  , sendAudioRaises := none
  , sendErrorRaises := none }

/-- Environment of the concrete spec scenario: text Hello, LLM stub
answers Hi there, TTS stub answers the bytes 0 and 1. -/
def envC6 : Env :=
  { settings := sampleSettings
  , recv := .value (.obj [("text", .str "Hello")])
  , llmHttp := .response 200 llmBodyHi
  , ttsHttp := .response 200 [0, 1]
  , sendAudioRaises := none
  , sendErrorRaises := none }

/-- Environment: valid request, LLM call fails with a transport
timeout, TTS upstream would answer 200. -/
def envC9 : Env :=
  { settings := sampleSettings
  , recv := .value (.obj [("text", .str "Hi")])
  , llmHttp := .timeout
  , ttsHttp := .response 200 [7]
  , sendAudioRaises := none
  , sendErrorRaises := none }

/-! ## Helper lemmas -/

theorem llm_response_spec (o : HttpOutcome) :
    get_llm_response o = Except.ok (llmReturnValue o) := by
  cases o with
  | response status body =>
    by_cases h2 : is2xx status = true
    · cases hx : extractChoiceContent body <;>
        simp [get_llm_response, llmTryBody, llmReturnValue, h2, hx]
    · simp [get_llm_response, llmTryBody, llmReturnValue, h2]
  | timeout => rfl
  | connectFail => rfl

theorem b64Index_b64Char : ∀ n : Nat, n < 64 → b64Index (b64Char n) = n := by
  decide

theorem b64Char_ne_pad : ∀ n : Nat, n < 64 → b64Char n ≠ '=' := by
  decide

theorem b64List_roundtrip :
    ∀ l : List Nat, (∀ b ∈ l, b < 256) →
      b64decodeList (b64encodeList l) = l
  | [], _ => rfl
  | [b0], h => by
      have hb0 : b0 < 256 := h b0 (by simp)
      have i0 := b64Index_b64Char (b0 / 4) (by omega)
      have i1 := b64Index_b64Char (b0 % 4 * 16) (by omega)
      simp only [b64encodeList, b64decodeList, if_pos rfl, i0, i1]
      have e0 : b0 / 4 * 4 + b0 % 4 * 16 / 16 = b0 := by omega
      rw [e0]
      simp
  | [b0, b1], h => by
      have hb0 : b0 < 256 := h b0 (by simp)
      have hb1 : b1 < 256 := h b1 (by simp)
      have i0 := b64Index_b64Char (b0 / 4) (by omega)
      have i1 := b64Index_b64Char (b0 % 4 * 16 + b1 / 16) (by omega)
      have i2 := b64Index_b64Char (b1 % 16 * 4) (by omega)
      have n2 := b64Char_ne_pad (b1 % 16 * 4) (by omega)
      simp only [b64encodeList, b64decodeList, if_neg n2, if_pos rfl,
        i0, i1, i2]
      have e0 : b0 / 4 * 4 + (b0 % 4 * 16 + b1 / 16) / 16 = b0 := by omega
      have e1 : (b0 % 4 * 16 + b1 / 16) % 16 * 16 + b1 % 16 * 4 / 4 = b1 := by
        omega
      rw [e0, e1]
      simp
  | b0 :: b1 :: b2 :: rest, h => by
      have hb0 : b0 < 256 := h b0 (by simp)
      have hb1 : b1 < 256 := h b1 (by simp)
      have hb2 : b2 < 256 := h b2 (by simp)
      have ih := b64List_roundtrip rest
        (fun b hb => h b (by simp [hb]))
      have i0 := b64Index_b64Char (b0 / 4) (by omega)
      have i1 := b64Index_b64Char (b0 % 4 * 16 + b1 / 16) (by omega)
      have i2 := b64Index_b64Char (b1 % 16 * 4 + b2 / 64) (by omega)
      have i3 := b64Index_b64Char (b2 % 64) (by omega)
      have n2 := b64Char_ne_pad (b1 % 16 * 4 + b2 / 64) (by omega)
      have n3 := b64Char_ne_pad (b2 % 64) (by omega)
      simp only [b64encodeList, b64decodeList, if_neg n2, if_neg n3,
        i0, i1, i2, i3]
      have e0 : b0 / 4 * 4 + (b0 % 4 * 16 + b1 / 16) / 16 = b0 := by omega
      have e1 : (b0 % 4 * 16 + b1 / 16) % 16 * 16 +
          (b1 % 16 * 4 + b2 / 64) / 4 = b1 := by omega
      have e2 : (b1 % 16 * 4 + b2 / 64) % 4 * 64 + b2 % 64 = b2 := by omega
      rw [e0, e1, e2, ih]

theorem send_error_total (s : Option PyExn) (m : String) :
    send_error s m =
      Except.ok (match s with
        | none => [sendErrorFrame m]
        | some _ => []) := by
  cases s <;> rfl

theorem procError_trace (env : Env) (li : Option String)
    (ti : Option (Option JValue)) (e : PyExn) :
    procError env li ti e =
      ⟨li, ti,
        (match env.sendErrorRaises with
          | none => [sendErrorFrame ("Processing error: " ++ pyStr e)]
          | some _ => []), .next⟩ := by
  cases h : env.sendErrorRaises <;>
    simp [procError, send_error, sendErrorFrame, h]

theorem runPipeline_outcome (env : Env) (message : ClientMessage) :
    (runPipeline env message).outcome = .next := by
  unfold runPipeline
  rw [llm_response_spec]
  cases hts : get_tts_audio env.settings env.ttsHttp with
  | error e => simp [procError_trace]
  | ok audio_bytes =>
    cases hos : asOptionalStr (llmReturnValue env.llmHttp) with
    | error e => simp [procError_trace, hos]
    | ok llm_text_val =>
      cases hsa : env.sendAudioRaises with
      | some e => simp [procError_trace, hos, hsa]
      | none => simp [hos, hsa]

theorem runPipeline_tts (env : Env) (message : ClientMessage) :
    (runPipeline env message).ttsInput = some (llmReturnValue env.llmHttp) := by
  unfold runPipeline
  rw [llm_response_spec]
  cases hts : get_tts_audio env.settings env.ttsHttp with
  | error e => simp [procError_trace]
  | ok audio_bytes =>
    cases hos : asOptionalStr (llmReturnValue env.llmHttp) with
    | error e => simp [procError_trace, hos]
    | ok llm_text_val =>
      cases hsa : env.sendAudioRaises with
      | some e => simp [procError_trace, hos, hsa]
      | none => simp [hos, hsa]

theorem procError_sent_cases (env : Env) (li : Option String)
    (ti : Option (Option JValue)) (e : PyExn) :
    (procError env li ti e).sent = [] ∨
    ∃ m, (procError env li ti e).sent = [sendErrorFrame m] := by
  cases h : env.sendErrorRaises with
  | none =>
    exact Or.inr ⟨"Processing error: " ++ pyStr e, by simp [procError_trace, h]⟩
  | some e2 => exact Or.inl (by simp [procError_trace, h])

theorem runPipeline_sent (env : Env) (message : ClientMessage) :
    (runPipeline env message).sent = [] ∨
    (∃ m, (runPipeline env message).sent = [sendErrorFrame m]) ∨
    (∃ b t, (runPipeline env message).sent =
      [ServerMessage.model_dump (ServerMessage.mk "audio" (some b) t none)]) := by
  unfold runPipeline
  rw [llm_response_spec]
  dsimp only
  cases hts : get_tts_audio env.settings env.ttsHttp with
  | error e =>
    rcases procError_sent_cases env (some message.text)
        (some (llmReturnValue env.llmHttp)) e with h | ⟨m, h⟩
    · exact Or.inl h
    · exact Or.inr (Or.inl ⟨m, h⟩)
  | ok audio_bytes =>
    dsimp only
    cases hos : asOptionalStr (llmReturnValue env.llmHttp) with
    | error e =>
      rcases procError_sent_cases env (some message.text)
          (some (llmReturnValue env.llmHttp)) e with h | ⟨m, h⟩
      · exact Or.inl h
      · exact Or.inr (Or.inl ⟨m, h⟩)
    | ok llm_text_val =>
      dsimp only
      cases hsa : env.sendAudioRaises with
      | some e =>
        rcases procError_sent_cases env (some message.text)
            (some (llmReturnValue env.llmHttp)) e with h | ⟨m, h⟩
        · exact Or.inl h
        · exact Or.inr (Or.inl ⟨m, h⟩)
      | none =>
        exact Or.inr (Or.inr ⟨b64encode audio_bytes, llm_text_val, rfl⟩)

/-! ## Claim theorems -/

/-- C1 (code behaviour at the failing input): when the
Text-Generation stage fails (here: upstream 500), the handler still
calls the Speech-Synthesis client, passing it None, contrary to the
claim that no such call occurs; the error frame the client receives is
the one produced by the synthesis stage failing on that input. -/
theorem C1_tts_called_after_llm_failure :
    (processOneMessage envC1).ttsInput = some none ∧
    (processOneMessage envC1).sent =
      [sendErrorFrame "Processing error: OpenAI TTS error: 400"] ∧
    (processOneMessage envC1).outcome = .next := by
  refine ⟨rfl, ?_, rfl⟩
  decide

/-- C2 (counterexample): on a non-2xx response (500), get_llm_response
does not fail with a typed error carrying status and detail; it
returns normally with None, which is not a string. -/
theorem C2_counterexample :
    get_llm_response (HttpOutcome.response 500 (JValue.obj [])) =
      Except.ok none := rfl

/-- C2 (amended): get_llm_response never raises; it returns the first
choice message content of a 2xx response with the expected shape, and
None in every other case (non-2xx status, missing generated-content
field, transport failure). -/
theorem C2_amended (o : HttpOutcome) :
    get_llm_response o = Except.ok (llmReturnValue o) ∧
    ∀ e, get_llm_response o ≠ Except.error e := by
  refine ⟨llm_response_spec o, ?_⟩
  intro e h
  rw [llm_response_spec o] at h
  exact Except.noConfusion h

/-- C3 (counterexample): a payload that is not parseable as the
expected structure does not get the Invalid-message-format error
frame; the JSONDecodeError from receive_json is caught by no clause,
no frame is sent, and the loop (hence the connection) terminates. -/
theorem C3_counterexample :
    (processOneMessage envC3).sent = [] ∧
    (processOneMessage envC3).outcome = .uncaught .jsonDecodeError :=
  ⟨rfl, rfl⟩

/-- C3 (amended): for every inbound payload that parses as a JSON
object but fails ClientMessage validation (text missing, not a string,
empty, or longer than 2000 characters), the orchestrator sends the
Invalid-message-format error frame, makes no upstream call, and
returns to waiting for the next message; payloads that are not
parseable as JSON, or not JSON objects, instead raise an uncaught
exception that ends the loop. -/
theorem C3_amended (env : Env) (data : JValue)
    (hrecv : env.recv = .value data)
    (hbad : validateClientMessage data = .error .validationError)
    (hsend : env.sendErrorRaises = none) :
    (processOneMessage env).sent = [sendErrorFrame "Invalid message format"] ∧
    (processOneMessage env).outcome = .next ∧
    (processOneMessage env).llmInput = none ∧
    (processOneMessage env).ttsInput = none := by
  unfold processOneMessage
  rw [hrecv]
  simp [hbad, send_error, hsend]

/-- C3 (witness): the amended theorem applied to the empty-text
payload. -/
theorem C3_amended_witness :
    (processOneMessage envC3w).sent =
      [sendErrorFrame "Invalid message format"] ∧
    (processOneMessage envC3w).outcome = .next ∧
    (processOneMessage envC3w).llmInput = none ∧
    (processOneMessage envC3w).ttsInput = none :=
  C3_amended envC3w (.obj [("text", .str "")]) rfl rfl rfl

/-- C4 (counterexample): an error while attempting to send the
response frame does not close the connection: with both upstream calls
succeeding and every send raising, the iteration is caught by the
broad handler and the loop continues (outcome next), with no frame
delivered. -/
theorem C4_counterexample :
    (processOneMessage envC4).outcome = .next ∧
    (processOneMessage envC4).sent = [] := ⟨rfl, rfl⟩

/-- C4 (amended): the loop outcome is a function of the receive and
validation stage alone (loopExitOf): disconnect or RuntimeError while
receiving breaks the loop cleanly; an unparseable or non-object
payload escapes it with an uncaught exception; in every other case —
including validation failures, LLM or TTS failures, and failures
sending the response or error frame — the loop continues, so a send
failure never closes the connection within the same iteration. -/
theorem C4_amended (env : Env) :
    (processOneMessage env).outcome = loopExitOf env := by
  unfold processOneMessage loopExitOf
  cases hr : env.recv with
  | raises e => cases e <;> rfl
  | value data =>
    dsimp only
    cases hv : validateClientMessage data with
    | ok message => exact runPipeline_outcome env message
    | error e =>
      cases e
      case validationError => simp [send_error_total]
      all_goals rfl

/-- C5: every frame the handler delivers carries exactly the fields of
one variant: an error frame is type error with an explicit
empty-string llm_text and an error_message, and carries no audio_data
field; an audio frame is type audio with an audio_data field and an
optional llm_text, and carries no error_message field; fields whose
value is None are omitted from the dump entirely rather than sent as
null placeholders. -/
theorem C5_response_variants (env : Env) (f : List (String × String))
    (hf : f ∈ (processOneMessage env).sent) :
    (∃ m, f = [("type", "error"), ("llm_text", ""), ("error_message", m)]) ∨
    (∃ b t, f = [("type", "audio"), ("audio_data", b)]
        ++ optField "llm_text" t) := by
  have hshape : (processOneMessage env).sent = [] ∨
      (∃ m, (processOneMessage env).sent = [sendErrorFrame m]) ∨
      (∃ b t, (processOneMessage env).sent =
        [ServerMessage.model_dump (ServerMessage.mk "audio" (some b) t none)]) := by
    unfold processOneMessage
    cases hr : env.recv with
    | raises e => cases e <;> exact Or.inl rfl
    | value data =>
      dsimp only
      cases hv : validateClientMessage data with
      | ok message => exact runPipeline_sent env message
      | error e =>
        cases e
        case validationError =>
          cases hse : env.sendErrorRaises with
          | none =>
            exact Or.inr (Or.inl ⟨"Invalid message format",
              by simp [send_error_total, hse]⟩)
          | some e2 => exact Or.inl (by simp [send_error_total, hse])
        all_goals exact Or.inl rfl
  rcases hshape with h | ⟨m, h⟩ | ⟨b, t, h⟩
  · rw [h] at hf
    exact absurd hf (List.not_mem_nil f)
  · rw [h] at hf
    rw [List.mem_singleton.mp hf]
    exact Or.inl ⟨m, by simp [sendErrorFrame, ServerMessage.model_dump, optField]⟩
  · rw [h] at hf
    rw [List.mem_singleton.mp hf]
    exact Or.inr ⟨b, t, by simp [ServerMessage.model_dump, optField]⟩

/-- C5 (witness): the variant property at the concrete error frame the
handler sends for a payload without a text field. -/
theorem C5_witness :
    (∃ m, sendErrorFrame "Invalid message format" =
        [("type", "error"), ("llm_text", ""), ("error_message", m)]) ∨
    (∃ b t, sendErrorFrame "Invalid message format" =
        [("type", "audio"), ("audio_data", b)] ++ optField "llm_text" t) :=
  C5_response_variants envC5 (sendErrorFrame "Invalid message format")
    (by decide)

/-- C6: for the input text Hello, with the Text-Generation stub
answering Hi there and the Speech-Synthesis stub answering the bytes 0
and 1, the frame sent to the client is exactly the audio frame with
audio_data AAE= and llm_text Hi there, and the loop continues. -/
theorem C6_concrete_scenario :
    (processOneMessage envC6).sent =
      [[("type", "audio"), ("audio_data", "AAE="), ("llm_text", "Hi there")]] ∧
    (processOneMessage envC6).outcome = .next := by
  refine ⟨?_, rfl⟩
  decide

/-- C7 (counterexample): at the sample configuration and the input
Hello, the request payload built for the chat-completions endpoint is
exactly model, a messages array holding the single user turn, max
tokens and temperature — it contains no system instruction at all,
contrary to the claim that a fixed configured system instruction is
carried. -/
theorem C7_counterexample :
    llmPayload sampleSettings "Hello" =
      [ ("model", JValue.str "gpt-4o-mini")
      , ("messages", JValue.arr [JValue.obj
          [("role", JValue.str "user"), ("content", JValue.str "Hello")]])
      , ("max_tokens", JValue.num 150)
      , ("temperature", JValue.num 1) ] := rfl

/-- C7 (amended): for every configuration and user text, the request
payload carries the configured model identifier, the user text as the
sole conversational turn (a single message with role user), the
configured max-output-token bound and the configured sampling
temperature; no system instruction is included, and everything except
the user text comes from static configuration. -/
theorem C7_amended (settings : Settings) (user_text : String) :
    jLookup "model" (llmPayload settings user_text) =
      some (.str settings.llm_model) ∧
    jLookup "messages" (llmPayload settings user_text) =
      some (.arr [.obj [("role", .str "user"), ("content", .str user_text)]]) ∧
    jLookup "max_tokens" (llmPayload settings user_text) =
      some (.num (Int.ofNat settings.llm_max_tokens)) ∧
    jLookup "temperature" (llmPayload settings user_text) =
      some settings.llm_temperature :=
  ⟨rfl, rfl, rfl, rfl⟩

/-- C8: transport-encoding any byte sequence of audio for an audio
frame and decoding the encoded string yields back exactly the original
bytes — the base64 transport encoding is lossless. -/
theorem C8_roundtrip (audio : List Nat) (h : ∀ b ∈ audio, b < 256) :
    b64decode (b64encode audio) = audio :=
  b64List_roundtrip audio h

/-- C8 (witness): the round trip at the concrete audio bytes 0 and
1. -/
theorem C8_roundtrip_witness :
    (∀ b ∈ [0, 1], b < 256) ∧ b64decode (b64encode [0, 1]) = [0, 1] :=
  ⟨by decide, C8_roundtrip [0, 1] (by decide)⟩

/-- C9: get_llm_response never raises to its caller; whenever the HTTP
call or the extraction of the first choice content fails, it returns
None, and the handler then invokes the Speech-Synthesis stage with
None as its input. -/
theorem C9_llm_failure_flows_none_to_tts (env : Env) (data : JValue)
    (message : ClientMessage)
    (hrecv : env.recv = .value data)
    (hvalid : validateClientMessage data = .ok message)
    (hfail : llmReturnValue env.llmHttp = none) :
    get_llm_response env.llmHttp = Except.ok none ∧
    (processOneMessage env).ttsInput = some none := by
  constructor
  · rw [llm_response_spec, hfail]
  · unfold processOneMessage
    rw [hrecv]
    dsimp only
    rw [hvalid]
    dsimp only
    rw [runPipeline_tts, hfail]

/-- C9 (witness): the theorem applied to a transport timeout of the
LLM call. -/
theorem C9_witness :
    get_llm_response envC9.llmHttp = Except.ok none ∧
    (processOneMessage envC9).ttsInput = some none :=
  C9_llm_failure_flows_none_to_tts envC9 (.obj [("text", .str "Hi")])
    ⟨"Hi"⟩ rfl rfl rfl

/-- C10: send_error is total with respect to the socket state: for
every behaviour of the underlying send and every error message it
returns normally, never propagating an exception; when the send
raises, the failure is swallowed and no frame at all is delivered to
the client. -/
theorem C10_send_error_never_raises (sendRaises : Option PyExn)
    (error_message : String) :
    send_error sendRaises error_message =
      Except.ok (match sendRaises with
        | none => [sendErrorFrame error_message]
        | some _ => []) := by
  cases sendRaises <;> rfl

/-- C2 (witness): the amended theorem applied to a transport
timeout. -/
theorem C2_amended_witness :
    get_llm_response HttpOutcome.timeout = Except.ok none :=
  (C2_amended HttpOutcome.timeout).1

/-- C4 (witness): the amended theorem applied to the healthy concrete
scenario environment. -/
theorem C4_amended_witness :
    (processOneMessage envC6).outcome = loopExitOf envC6 :=
  C4_amended envC6

/-- C7 (witness): the amended theorem applied to the sample
configuration and a concrete text. -/
theorem C7_amended_witness :
    jLookup "model" (llmPayload sampleSettings "Hi") =
      some (JValue.str "gpt-4o-mini") :=
  (C7_amended sampleSettings "Hi").1

/-- C10 (witness): the theorem applied to a broken channel, showing
no exception and no delivered frame. -/
theorem C10_witness :
    send_error (some PyExn.connectError) "boom" = Except.ok [] :=
  C10_send_error_never_raises (some PyExn.connectError) "boom"
